import Mathlib

/-!
Verification of the greenhouse-scout pest-monitoring core: the data model,
the alert classifier, the store actions, the trend bucketing and the
multi-pass aggregation, shallowly embedded from the TypeScript sources
(store `useAppStore`, the `Trends` page, the `Scan` pages, the settings
page and the analysis API).
-/

namespace Scout

/-- Pest categories, from `types/index.ts` (`PestType`). -/
inductive PestType
  | whitefly
  | thrips
  | fungus_gnat
  | shore_fly
  | aphid
  | leafminer
  | other
deriving DecidableEq

/-- Consistency rating of a multi-pass result, from `types/index.ts`. -/
inductive ConsistencyLevel
  | high
  | medium
  | low
deriving DecidableEq

/-- Ordered severity levels, from `types/index.ts` (`AlertLevel`). -/
inductive AlertLevel
  | safe
  | watch
  | action
  | critical
deriving DecidableEq

/-- Sticky-card colors, from `types/index.ts` (`Trap.cardColor`). -/
inductive CardColor
  | yellow
  | blue
deriving DecidableEq

/-- Per-category count of one scan, from `types/index.ts` (`PestCount`).
Confidence is modelled as a rational in place of a JS number. -/
structure PestCount where
  type : PestType
  count : ℕ
  confidence : ℚ
  passResults : Option (List ℕ)
  consistency : Option ConsistencyLevel
deriving DecidableEq

/-- A saved scan record, from `types/index.ts` (`Scan`).  Timestamps are
milliseconds since the epoch (the code stores ISO strings and converts with
`new Date(...)`). -/
structure Scan where
  id : String
  trapId : String
  timestamp : ℕ
  imageData : Option String
  pests : List PestCount
  totalCount : ℕ
  notes : String
  analyzed : Bool
  analyzing : Bool
deriving DecidableEq

/-- A registered trap, from `types/index.ts` (`Trap`). -/
structure Trap where
  id : String
  name : String
  zone : String
  greenhouse : String
  cardColor : CardColor
  position : Option (ℚ × ℚ)
  lastScanned : Option ℕ
  lastCount : Option ℕ
  alertLevel : AlertLevel
deriving DecidableEq

/-- A greenhouse record, from `types/index.ts` (`Greenhouse`). -/
structure Greenhouse where
  id : String
  name : String
  zones : List String
deriving DecidableEq

/-- Per-category alert thresholds, from `types/index.ts` (`ThresholdConfig`). -/
structure ThresholdConfig where
  pestType : PestType
  watch : ℕ
  action : ℕ
  critical : ℕ
deriving DecidableEq

/-- The default threshold table `DEFAULT_THRESHOLDS` from `types/index.ts`. -/
def DEFAULT_THRESHOLDS : List ThresholdConfig :=
  [ ⟨.whitefly, 5, 15, 30⟩,
    ⟨.thrips, 10, 15, 30⟩,
    ⟨.fungus_gnat, 10, 25, 50⟩,
    ⟨.shore_fly, 20, 40, 80⟩,
    ⟨.aphid, 3, 8, 15⟩,
    ⟨.leafminer, 1, 3, 8⟩,
    ⟨.other, 10, 20, 40⟩ ]

/-- The store state held by `useAppStore` (`scans`, `traps`, `greenhouses`,
`thresholds`). -/
structure AppState where
  scans : List Scan
  traps : List Trap
  greenhouses : List Greenhouse
  thresholds : List ThresholdConfig
deriving DecidableEq

/-- The store helper `getAlertLevel` from `useAppStore`: look the category up
in the threshold table (missing category gives `safe`), then cascade the
bounds from `critical` down. -/
def getAlertLevel (thresholds : List ThresholdConfig) (pestType : PestType)
    (count : ℕ) : AlertLevel :=
  match thresholds.find? (fun t => decide (t.pestType = pestType)) with
  | none => .safe
  | some threshold =>
    if count ≥ threshold.critical then .critical
    else if count ≥ threshold.action then .action
    else if count ≥ threshold.watch then .watch
    else .safe

/-- The spec's `tier(count, cfg)` function, stated in its own words for
comparison with the store's `getAlertLevel`. -/
def tier (count : ℕ) (cfg : ThresholdConfig) : AlertLevel :=
  if count ≥ cfg.critical then .critical
  else if count ≥ cfg.action then .action
  else if count ≥ cfg.watch then .watch
  else .safe

/-- The array `levels` used by `getHighestAlert` in `useAppStore`. -/
def levels : List AlertLevel := [.safe, .watch, .action, .critical]

/-- `getHighestAlert` from `useAppStore`: fold over the scan's pests keeping
the numerically highest level, skipping pests whose category has no threshold
config, then index back into `levels`. -/
def getHighestAlert (scan : Scan) (thresholds : List ThresholdConfig) :
    AlertLevel :=
  let highest := scan.pests.foldl (fun highest pest =>
    match thresholds.find? (fun t => decide (t.pestType = pest.type)) with
    | none => highest
    | some threshold =>
      let level : ℕ :=
        if pest.count ≥ threshold.critical then 3
        else if pest.count ≥ threshold.action then 2
        else if pest.count ≥ threshold.watch then 1
        else 0
      max highest level) 0
  levels.getD highest .safe

/-- The numeric priority assigned to each level by the `priority` records in
the `Scan` pages and the dashboard. -/
def alertPriority : AlertLevel → ℕ
  | .safe => 0
  | .watch => 1
  | .action => 2
  | .critical => 3

/-- The binary maximum in the `safe < watch < action < critical` order, as
reduced in `overallAlertLevel` (`priority[l] > priority[max] ? l : max`). -/
def maxAlert (a b : AlertLevel) : AlertLevel :=
  if alertPriority a < alertPriority b then b else a

/-- The store action `addScan`: prepend the scan and stamp the matching trap
with the scan time, total and the alert level computed from the thresholds in
effect now. -/
def addScan (state : AppState) (scan : Scan) : AppState :=
  { state with
    scans := scan :: state.scans,
    traps := state.traps.map (fun t =>
      if t.id = scan.trapId then
        { t with
          lastScanned := some scan.timestamp,
          lastCount := some scan.totalCount,
          alertLevel := getHighestAlert scan state.thresholds }
      else t) }

/-- A `Partial<ThresholdConfig>` update as passed to `updateThreshold`
(only the three numeric bounds are ever updated by the settings page). -/
structure ThresholdUpdate where
  watch : Option ℕ
  action : Option ℕ
  critical : Option ℕ
deriving DecidableEq

/-- The object spread `{ ...t, ...updates }` applied by `updateThreshold`. -/
def applyThresholdUpdate (t : ThresholdConfig) (u : ThresholdUpdate) :
    ThresholdConfig :=
  { t with
    watch := u.watch.getD t.watch,
    action := u.action.getD t.action,
    critical := u.critical.getD t.critical }

/-- The store action `updateThreshold`: merge the update into every config
whose category matches, with no validation of the bounds. -/
def updateThreshold (state : AppState) (pestType : PestType)
    (updates : ThresholdUpdate) : AppState :=
  { state with
    thresholds := state.thresholds.map (fun t =>
      if t.pestType = pestType then applyThresholdUpdate t updates else t) }

/-- The three editable threshold columns of the settings page. -/
inductive ThresholdField
  | watch
  | action
  | critical
deriving DecidableEq

/-- The single-field update object `{ [field]: num }` built by
`handleThresholdChange`. -/
def fieldUpdate (field : ThresholdField) (n : ℕ) : ThresholdUpdate :=
  match field with
  | .watch => ⟨some n, none, none⟩
  | .action => ⟨none, some n, none⟩
  | .critical => ⟨none, none, some n⟩

/-- `handleThresholdChange` from the settings page: `parseInt` the input
(modelled as an `Option ℤ` parse outcome) and apply the update only when the
parse succeeded and the value is non-negative; otherwise leave the state
untouched.  No monotonicity check is performed. -/
def handleThresholdChange (state : AppState) (pestType : PestType)
    (field : ThresholdField) (parsed : Option ℤ) : AppState :=
  match parsed with
  | none => state
  | some num =>
    if 0 ≤ num then updateThreshold state pestType (fieldUpdate field num.toNat)
    else state

/-- The store action `deleteTrap`: drop the trap with the given id and every
scan whose `trapId` matches it. -/
def deleteTrap (state : AppState) (id : String) : AppState :=
  { state with
    traps := state.traps.filter (fun t => decide (t.id ≠ id)),
    scans := state.scans.filter (fun s => decide (s.trapId ≠ id)) }

/-- One day in milliseconds, the unit of JS `Date` arithmetic. -/
def DAY : ℕ := 86400000

/-- date-fns `startOfDay` in a fixed reference time zone with epoch-aligned
days: truncate the instant to the preceding midnight. -/
def startOfDay (t : ℕ) : ℕ := t / DAY * DAY

/-- date-fns `eachDayOfInterval`: every day start from `startOfDay start` up
to `fin`, inclusive. -/
def eachDayOfInterval (start fin : ℕ) : List ℕ :=
  (List.range ((fin - startOfDay start) / DAY + 1)).map
    (fun i => startOfDay start + i * DAY)

/-- The day-range branch of the `chartData` memo on the `Trends` page, up to
the per-bucket assignment of scans: `startDate = subDays(now, 7)`, the bucket
starts from `eachDayOfInterval`, the scan filter `d >= startDate && d <= now`,
and per bucket the window `[bucketStart, bucketEnd]` checked with the
boundary-inclusive `isWithinInterval`.  Each entry is
`(bucketStart, bucketEnd, bucketScans)`. -/
def dayBucketEntries (scans : List Scan) (now : ℕ) :
    List (ℕ × ℕ × List Scan) :=
  let startDate := now - 7 * DAY
  let buckets := eachDayOfInterval startDate now
  let filteredScans := scans.filter (fun s =>
    decide (startDate ≤ s.timestamp) && decide (s.timestamp ≤ now))
  (List.range buckets.length).map (fun i =>
    let bucketStart := buckets.getD i 0
    let bucketEnd :=
      if i < buckets.length - 1 then buckets.getD (i + 1) 0
      else startOfDay (bucketStart + DAY)
    (bucketStart, bucketEnd,
      filteredScans.filter (fun s =>
        decide (bucketStart ≤ s.timestamp) && decide (s.timestamp ≤ bucketEnd))))

/-- The per-bucket accumulation `counts[pest.type] += pest.count` over every
pest of every scan in the bucket. -/
def pestSum (scans : List Scan) (t : PestType) : ℕ :=
  (scans.flatMap (fun s => s.pests)).foldl
    (fun acc p => if p.type = t then acc + p.count else acc) 0

/-- A chart data point, from `types/index.ts` (`TrendDataPoint`); the label
string is omitted, the `date` field keeps the bucket start instant. -/
structure TrendDataPoint where
  date : ℕ
  whitefly : ℕ
  thrips : ℕ
  fungus_gnat : ℕ
  shore_fly : ℕ
  aphid : ℕ
  leafminer : ℕ
  other : ℕ
  total : ℕ
deriving DecidableEq

/-- The data point built for one bucket by the `chartData` memo: the seven
per-category sums and their grand total. -/
def mkTrendPoint (bucketStart : ℕ) (bucketScans : List Scan) : TrendDataPoint :=
  let w := pestSum bucketScans .whitefly
  let th := pestSum bucketScans .thrips
  let fg := pestSum bucketScans .fungus_gnat
  let sf := pestSum bucketScans .shore_fly
  let ap := pestSum bucketScans .aphid
  let lm := pestSum bucketScans .leafminer
  let ot := pestSum bucketScans .other
  ⟨bucketStart, w, th, fg, sf, ap, lm, ot, w + th + fg + sf + ap + lm + ot⟩

/-- The full day-range `chartData` computation on the `Trends` page.  In the
source `now` is read from the system clock (`const now = new Date()`) at
invocation; here that clock reading is the explicit argument `now`. -/
def chartDataDay (scans : List Scan) (now : ℕ) : List TrendDataPoint :=
  (dayBucketEntries scans now).map (fun e => mkTrendPoint e.1 e.2.2)

/-- Modelled from the spec: the multi-pass aggregator's `median` (§4.1,
§8).  The aggregator module (`lib/analyze` of the multi-pass scan page) is
not present under `src/`; only its callers and its result types are.  Sort
the values; an odd count takes the middle value, an even count takes the
average of the two middle values rounded to the nearest integer
(`Math.round`, half away from zero, is `(a + b + 1) / 2` on naturals). -/
def median (values : List ℕ) : ℕ :=
  let sorted := List.insertionSort (· ≤ ·) values
  let n := sorted.length
  if n % 2 = 1 then sorted.getD (n / 2) 0
  else (sorted.getD (n / 2 - 1) 0 + sorted.getD (n / 2) 0 + 1) / 2

/-- Modelled from the spec: one oracle pass outcome for a category (§3,
`PassResult`) — a non-negative raw count, or a failure (timeout / malformed
/ unavailable). -/
inductive PassOutcome
  | ok (count : ℕ)
  | failure
deriving DecidableEq

/-- Modelled from the spec: the values actually used for a category — the
counts of the successful passes, failures simply excluded (§4.1). -/
def usableValues (passes : List PassOutcome) : List ℕ :=
  passes.filterMap (fun p =>
    match p with
    | .ok c => some c
    | .failure => none)

/-- Modelled from the spec: the per-image completeness flag (§4.1). -/
inductive Completeness
  | complete
  | degraded
  | failed
deriving DecidableEq

/-- Modelled from the spec: classify the configured passes of a category as
`complete` (all succeeded), `degraded` (some failed, at least one usable
value remains) or `failed` (no usable value). -/
def completeness (passes : List PassOutcome) : Completeness :=
  if passes.all (fun p =>
      match p with
      | .ok _ => true
      | .failure => false) then .complete
  else if usableValues passes ≠ [] then .degraded
  else .failed

/-- Modelled from the spec: the aggregated count of a category — the median
of the successful pass values, or nothing when no usable value remains (the
category is omitted, never defaulted to zero). -/
def categoryCount (passes : List PassOutcome) : Option ℕ :=
  if usableValues passes = [] then none
  else some (median (usableValues passes))

/-- The analysis result consumed by the scan page (`AnalysisResult` /
`AnalysisResponse`): the API handler parses the oracle's JSON and returns
`pests` and `totalCount` verbatim, without checking them against each
other. -/
structure AnalysisResult where
  pests : List PestCount
  totalCount : ℕ
  summary : String
deriving DecidableEq

/-- `handleSave` on the scan page: build the `Scan` record from the held
analysis result.  `totalCount` is stored exactly as the analysis reported
it. -/
def savedScan (id trapId : String) (timestamp : ℕ) (imageData : Option String)
    (result : AnalysisResult) (notes : String) : Scan :=
  { id := id, trapId := trapId, timestamp := timestamp, imageData := imageData,
    pests := result.pests, totalCount := result.totalCount, notes := notes,
    analyzed := true, analyzing := false }

/-- The sum of the per-category counts of a pest list (the reduction
`demoPests.reduce((sum, p) => sum + p.count, 0)` of `handleDemoScan`). -/
def sumCounts (pests : List PestCount) : ℕ :=
  pests.foldl (fun sum p => sum + p.count) 0

/-- `handleDemoScan` followed by `handleSave` on the demo-capable scan page:
the demo path computes `totalCount` as the sum of the generated pest counts
before saving. -/
def demoSavedScan (id trapId : String) (timestamp : ℕ)
    (demoPests : List PestCount) (notes : String) : Scan :=
  { id := id, trapId := trapId, timestamp := timestamp, imageData := none,
    pests := demoPests, totalCount := sumCounts demoPests, notes := notes,
    analyzed := true, analyzing := false }

/-- `overallAlertLevel` from the multi-pass `Scan` page: map every pest
through the store's `getAlertLevel` and reduce with the priority comparison,
starting from `safe`; an empty pest list yields `safe` directly. -/
def overallAlertLevel (pests : List PestCount)
    (thresholds : List ThresholdConfig) : AlertLevel :=
  if pests.length > 0 then
    (pests.map (fun p => getAlertLevel thresholds p.type p.count)).foldl
      maxAlert .safe
  else .safe

/-- The initial store state of `useAppStore` (no scans, no traps, the default
greenhouse, the default thresholds). -/
def initialState : AppState :=
  ⟨[], [],
   [⟨"default", "Main Greenhouse", ["Zone A", "Zone B", "Zone C", "Zone D"]⟩],
   DEFAULT_THRESHOLDS⟩

/-- A scan timestamped exactly at an interior bucket boundary (the midnight
two days after the epoch). -/
def boundaryScan : Scan :=
  { id := "s-mid", trapId := "t1", timestamp := 2 * DAY, imageData := none,
    pests := [], totalCount := 0, notes := "", analyzed := true,
    analyzing := false }

/-- A scan reporting twenty whiteflies. -/
def scanWhitefly20 : Scan :=
  { id := "s20", trapId := "t1", timestamp := 0, imageData := none,
    pests := [⟨.whitefly, 20, 1, none, none⟩], totalCount := 20, notes := "",
    analyzed := true, analyzing := false }

/-- A registered trap with no scans yet. -/
def demoTrap : Trap :=
  { id := "t1", name := "Trap 1", zone := "Zone A", greenhouse := "default",
    cardColor := .yellow, position := none, lastScanned := none,
    lastCount := none, alertLevel := .safe }

/-- The initial store state with one registered trap. -/
def stateWithTrap : AppState := { initialState with traps := [demoTrap] }

/-- A syntactically valid analysis response whose `totalCount` does not match
the sum of its per-category counts; the API handler forwards such a response
unchanged. -/
def badResult : AnalysisResult :=
  ⟨[⟨.whitefly, 5, 1, none, none⟩], 99, "moderate whitefly pressure"⟩

/-! ## Helper lemmas -/

/-- Indexing `levels` at a level's priority recovers the level. -/
theorem levels_getD_alertPriority (a : AlertLevel) :
    levels.getD (alertPriority a) .safe = a := by
  cases a <;> rfl

/-- `maxAlert` realizes the numeric maximum of the priorities. -/
theorem alertPriority_maxAlert (a b : AlertLevel) :
    alertPriority (maxAlert a b) = max (alertPriority a) (alertPriority b) := by
  unfold maxAlert
  rcases Nat.lt_or_ge (alertPriority a) (alertPriority b) with h | h
  · rw [if_pos h, Nat.max_eq_right (Nat.le_of_lt h)]
  · rw [if_neg (Nat.not_lt.mpr h), Nat.max_eq_left h]

/-- `maxAlert` is injective back through `alertPriority` on each level. -/
theorem alertPriority_getAlertLevel_step (thresholds : List ThresholdConfig)
    (pest : PestCount) (n : ℕ) :
    (match thresholds.find? (fun t => decide (t.pestType = pest.type)) with
      | none => n
      | some threshold =>
        let level : ℕ :=
          if pest.count ≥ threshold.critical then 3
          else if pest.count ≥ threshold.action then 2
          else if pest.count ≥ threshold.watch then 1
          else 0
        max n level)
    = max n (alertPriority (getAlertLevel thresholds pest.type pest.count)) := by
  unfold getAlertLevel
  cases hf : thresholds.find? (fun t => decide (t.pestType = pest.type)) with
  | none => simp [alertPriority]
  | some threshold =>
    dsimp only
    split_ifs <;> simp [alertPriority]

/-- The numeric fold of `getHighestAlert` agrees with the level-valued fold
of `maxAlert` over the per-pest tiers. -/
theorem highestAlert_fold (thresholds : List ThresholdConfig)
    (pests : List PestCount) (a : AlertLevel) :
    levels.getD
      (pests.foldl (fun highest pest =>
        match thresholds.find? (fun t => decide (t.pestType = pest.type)) with
        | none => highest
        | some threshold =>
          let level : ℕ :=
            if pest.count ≥ threshold.critical then 3
            else if pest.count ≥ threshold.action then 2
            else if pest.count ≥ threshold.watch then 1
            else 0
          max highest level) (alertPriority a)) .safe
    = pests.foldl
        (fun acc p => maxAlert acc (getAlertLevel thresholds p.type p.count)) a := by
  induction pests generalizing a with
  | nil => exact levels_getD_alertPriority a
  | cons p ps ih =>
    simp only [List.foldl_cons]
    rw [alertPriority_getAlertLevel_step thresholds p (alertPriority a),
      ← alertPriority_maxAlert a (getAlertLevel thresholds p.type p.count)]
    exact ih (maxAlert a (getAlertLevel thresholds p.type p.count))

/-! ## Claims -/

/-- Claim C2: for every count and every threshold config `cfg`, the
per-category tier function returns `critical` if `count >= cfg.critical`,
else `action` if `count >= cfg.action`, else `watch` if `count >= cfg.watch`,
else `safe`; with the default whitefly thresholds `{watch 5, action 15,
critical 30}` a count of 20 yields `action`. -/
theorem getAlertLevel_tier_cascade :
    (∀ (thresholds : List ThresholdConfig) (p : PestType) (count : ℕ)
        (cfg : ThresholdConfig),
      thresholds.find? (fun t => decide (t.pestType = p)) = some cfg →
      getAlertLevel thresholds p count = tier count cfg) ∧
    getAlertLevel DEFAULT_THRESHOLDS .whitefly 20 = .action := by
  refine ⟨?_, by decide⟩
  intro thresholds p count cfg h
  simp [getAlertLevel, h, tier]

/-- Witness for C2 at the default whitefly config and a count of 20. -/
theorem getAlertLevel_tier_cascade_witness :
    DEFAULT_THRESHOLDS.find?
        (fun t => decide (t.pestType = PestType.whitefly)) =
      some ⟨.whitefly, 5, 15, 30⟩ ∧
    getAlertLevel DEFAULT_THRESHOLDS .whitefly 20 =
      tier 20 ⟨.whitefly, 5, 15, 30⟩ :=
  ⟨by decide,
   getAlertLevel_tier_cascade.1 DEFAULT_THRESHOLDS .whitefly 20
     ⟨.whitefly, 5, 15, 30⟩ (by decide)⟩

/-- Claim C3: the store's `getHighestAlert` equals the maximum of the
per-category tiers over exactly the categories present in the scan (the
`overallAlertLevel` reduction of the scan page, which maps each pest through
`getAlertLevel` — so a category with no matching threshold config
contributes `safe` — and folds with the priority maximum from `safe`), and
a scan with an empty category set yields `safe`. -/
theorem getHighestAlert_eq_max_tier (scan : Scan)
    (thresholds : List ThresholdConfig) :
    getHighestAlert scan thresholds = overallAlertLevel scan.pests thresholds ∧
    getHighestAlert { scan with pests := [] } thresholds = .safe := by
  constructor
  · cases hp : scan.pests with
    | nil => simp [getHighestAlert, overallAlertLevel, hp, levels]
    | cons p ps =>
      have h := highestAlert_fold thresholds scan.pests .safe
      simp only [alertPriority] at h
      simp only [getHighestAlert, overallAlertLevel, hp, List.length_cons,
        List.foldl_map]
      simp only [hp] at h
      simpa [List.foldl_map] using h
  · rfl

/-- Claim C1: for every category, the aggregated count is the median of the
category's successful pass values — against the reference sort-and-index
reading: for any sorted permutation `s` of the usable values, an odd count
takes the middle value of `s` and an even count takes the average of the two
middle values rounded to the nearest integer. -/
theorem median_matches_sort_and_index (passes : List PassOutcome)
    (s : List ℕ) (hne : usableValues passes ≠ [])
    (hperm : s.Perm (usableValues passes))
    (hsort : s.Sorted (· ≤ ·)) :
    categoryCount passes =
      some (if s.length % 2 = 1 then s.getD (s.length / 2) 0
        else (s.getD (s.length / 2 - 1) 0 + s.getD (s.length / 2) 0 + 1) / 2) := by
  have hs : s = List.insertionSort (· ≤ ·) (usableValues passes) :=
    List.eq_of_perm_of_sorted
      (hperm.trans (List.perm_insertionSort _ _).symm) hsort
      (List.sorted_insertionSort _ _)
  subst hs
  simp [categoryCount, hne, median]

/-- Witness for C1: three passes returning 22, 18 and 20 aggregate to the
middle value 20 of the sorted values. -/
theorem median_matches_sort_and_index_witness :
    usableValues [PassOutcome.ok 22, .ok 18, .ok 20] ≠ [] ∧
    List.Perm [18, 20, 22] (usableValues [PassOutcome.ok 22, .ok 18, .ok 20]) ∧
    List.Sorted (· ≤ ·) ([18, 20, 22] : List ℕ) ∧
    categoryCount [PassOutcome.ok 22, .ok 18, .ok 20] =
      some (if ([18, 20, 22] : List ℕ).length % 2 = 1 then
          ([18, 20, 22] : List ℕ).getD (([18, 20, 22] : List ℕ).length / 2) 0
        else (([18, 20, 22] : List ℕ).getD
                (([18, 20, 22] : List ℕ).length / 2 - 1) 0 +
              ([18, 20, 22] : List ℕ).getD
                (([18, 20, 22] : List ℕ).length / 2) 0 + 1) / 2) :=
  ⟨by decide, by decide, by decide,
   median_matches_sort_and_index [.ok 22, .ok 18, .ok 20] [18, 20, 22]
     (by decide) (by decide) (by decide)⟩

/-- Claim C8: a failed (timed-out or malformed) pass is excluded from the
value list and never contributes a synthetic zero — appending a failed pass
changes neither the usable values nor the aggregated count — and three
configured passes returning `[ok 18, ok 22, failure]` give completeness
`degraded` and count `median [18, 22] = 20`. -/
theorem failed_pass_excluded :
    (∀ passes : List PassOutcome,
      usableValues (passes ++ [.failure]) = usableValues passes ∧
      categoryCount (passes ++ [.failure]) = categoryCount passes) ∧
    completeness [.ok 18, .ok 22, .failure] = .degraded ∧
    categoryCount [.ok 18, .ok 22, .failure] = some 20 := by
  refine ⟨?_, by decide, by decide⟩
  intro passes
  have h : usableValues (passes ++ [.failure]) = usableValues passes := by
    simp [usableValues]
  exact ⟨h, by simp [categoryCount, h]⟩

/-- Claim C9 counterexample: the scan saved from a parsed analysis response
whose `totalCount` is 99 while its only pest count is 5 stores `totalCount`
99, which is not the sum of the per-category counts. -/
theorem saved_totalCount_not_sum :
    (savedScan "s1" "quick-scan" 0 none badResult "").totalCount = 99 ∧
    sumCounts (savedScan "s1" "quick-scan" 0 none badResult "").pests = 5 ∧
    (99 : ℕ) ≠ 5 := by decide

/-- Claim C9 (amended): a saved scan stores the analysis result's `pests`
and `totalCount` verbatim — nothing recomputes or checks the sum on the
oracle path — while the demo path computes `totalCount` as the sum of the
generated per-category counts before saving. -/
theorem totalCount_passthrough_and_demo_sum :
    (∀ (id trapId : String) (ts : ℕ) (img : Option String)
        (result : AnalysisResult) (notes : String),
      (savedScan id trapId ts img result notes).totalCount = result.totalCount ∧
      (savedScan id trapId ts img result notes).pests = result.pests) ∧
    (∀ (id trapId : String) (ts : ℕ) (demoPests : List PestCount)
        (notes : String),
      (demoSavedScan id trapId ts demoPests notes).totalCount =
        sumCounts demoPests) :=
  ⟨fun _ _ _ _ _ _ => ⟨rfl, rfl⟩, fun _ _ _ _ _ => rfl⟩

/-- Claim C10: deleting a trap removes exactly that trap and exactly the
scans whose `trapId` is the deleted id, keeps every other trap and scan (as
an order-preserving sublist), and leaves thresholds and greenhouses
untouched. -/
theorem deleteTrap_removes_trap_and_its_scans (state : AppState)
    (id : String) :
    (∀ t, t ∈ (deleteTrap state id).traps ↔ t ∈ state.traps ∧ t.id ≠ id) ∧
    (∀ s, s ∈ (deleteTrap state id).scans ↔
      s ∈ state.scans ∧ s.trapId ≠ id) ∧
    (deleteTrap state id).traps.Sublist state.traps ∧
    (deleteTrap state id).scans.Sublist state.scans ∧
    (deleteTrap state id).thresholds = state.thresholds ∧
    (deleteTrap state id).greenhouses = state.greenhouses := by
  refine ⟨?_, ?_, ?_, ?_, rfl, rfl⟩
  · intro t; simp [deleteTrap, List.mem_filter]
  · intro s; simp [deleteTrap, List.mem_filter]
  · exact List.filter_sublist _
  · exact List.filter_sublist _

/-- Claim C4: a scan timestamped exactly at an interior bucket boundary (the
midnight `2 * DAY`, inside the seven-day span ending at `now = 8 * DAY`) is
assigned to two buckets by the day-range trend computation, because the
boundary-inclusive `isWithinInterval` admits it into both adjacent windows —
the windows are not mutually exclusive half-open intervals. -/
theorem midnight_scan_in_two_buckets :
    DAY ≤ boundaryScan.timestamp ∧ boundaryScan.timestamp < 8 * DAY ∧
    ((dayBucketEntries [boundaryScan] (8 * DAY)).filter
        (fun e => decide (boundaryScan ∈ e.2.2))).length = 2 := by decide

/-- Claim C5 counterexample: writing `watch := 100` for whitefly from the
default thresholds is accepted by `handleThresholdChange` and stored as-is,
leaving the stored whitefly config `{watch 100, action 15, critical 30}`,
which violates `watch <= action <= critical`. -/
theorem threshold_write_accepts_nonmonotonic :
    (handleThresholdChange initialState .whitefly .watch
        (some 100)).thresholds.find?
        (fun t => decide (t.pestType = PestType.whitefly)) =
      some ⟨.whitefly, 100, 15, 30⟩ ∧
    ¬ ∀ cfg ∈ (handleThresholdChange initialState .whitefly .watch
        (some 100)).thresholds,
        cfg.watch ≤ cfg.action ∧ cfg.action ≤ cfg.critical := by
  exact ⟨by decide, by decide⟩

/-- Claim C5 (amended): a threshold write whose input fails to parse or is
negative is rejected with the state unchanged; an accepted non-negative value
is stored verbatim into the named field of every matching config — never
reordered or clamped — with no check of `watch <= action <= critical`. -/
theorem handleThresholdChange_stores_verbatim (state : AppState)
    (p : PestType) (f : ThresholdField) (num : ℤ) :
    handleThresholdChange state p f none = state ∧
    (num < 0 → handleThresholdChange state p f (some num) = state) ∧
    (0 ≤ num → ∀ t ∈ state.thresholds, t.pestType = p →
      ({ t with watch := num.toNat } ∈
        (handleThresholdChange state p .watch (some num)).thresholds ∧
       { t with action := num.toNat } ∈
        (handleThresholdChange state p .action (some num)).thresholds ∧
       { t with critical := num.toNat } ∈
        (handleThresholdChange state p .critical (some num)).thresholds)) := by
  refine ⟨rfl, ?_, ?_⟩
  · intro h
    simp [handleThresholdChange, not_le.mpr h]
  · intro h t ht htp
    refine ⟨?_, ?_, ?_⟩ <;>
    · simp only [handleThresholdChange, if_pos h, updateThreshold]
      exact List.mem_map.mpr ⟨t, ht,
        by simp [htp, applyThresholdUpdate, fieldUpdate]⟩

/-- Witness for C5 (amended): from the initial state, a failed parse leaves
the state unchanged, and the accepted write `watch := 100` for whitefly is
stored verbatim. -/
theorem handleThresholdChange_stores_verbatim_witness :
    handleThresholdChange initialState .whitefly .watch none = initialState ∧
    ThresholdConfig.mk .whitefly 100 15 30 ∈
      (handleThresholdChange initialState .whitefly .watch
        (some 100)).thresholds :=
  ⟨(handleThresholdChange_stores_verbatim initialState .whitefly .watch
      100).1,
   ((handleThresholdChange_stores_verbatim initialState .whitefly .watch
      100).2.2 (by decide) ⟨.whitefly, 5, 15, 30⟩ (by decide) rfl).1⟩

/-- Claim C6 counterexample: the day-range chart data computed with the same
scan collection (and the same range) differs between two invocation
instants, so the output depends on the system-clock reading `new Date()`
taken inside the computation, which is not a caller-supplied input. -/
theorem chartData_depends_on_clock :
    chartDataDay [] (7 * DAY) ≠ chartDataDay [] (8 * DAY) := by decide

/-- Claim C6 (amended): the trend aggregation is deterministic in its
explicit inputs together with the clock reading: identical scans and equal
invocation instants always yield identical bucket sequences. -/
theorem chartData_deterministic_in_explicit_inputs
    (scans₁ scans₂ : List Scan) (now₁ now₂ : ℕ)
    (hs : scans₁ = scans₂) (hn : now₁ = now₂) :
    chartDataDay scans₁ now₁ = chartDataDay scans₂ now₂ := by
  rw [hs, hn]

/-- Witness for C6 (amended) at the empty scan collection and the instant
`7 * DAY`. -/
theorem chartData_deterministic_witness :
    ([] : List Scan) = [] ∧ 7 * DAY = 7 * DAY ∧
    chartDataDay [] (7 * DAY) = chartDataDay [] (7 * DAY) :=
  ⟨rfl, rfl,
   chartData_deterministic_in_explicit_inputs [] [] (7 * DAY) (7 * DAY)
     rfl rfl⟩

/-- Claim C7 counterexample: a `Scan` record carries no alert field, so a
saved scan's alert classification is recomputed from the live thresholds;
after the whitefly `critical` bound is lowered to 20, the classification of
a previously saved twenty-whitefly scan changes from `action` to
`critical`. -/
theorem scan_classification_changes_with_thresholds :
    getHighestAlert scanWhitefly20 initialState.thresholds = .action ∧
    getHighestAlert scanWhitefly20
        (updateThreshold initialState .whitefly
          ⟨none, none, some 20⟩).thresholds = .critical ∧
    AlertLevel.action ≠ AlertLevel.critical := by decide

/-- Claim C7 (amended): at save time `addScan` computes the alert level from
the thresholds then in effect and stores it on the scanned trap (not on the
scan record), and `updateThreshold` leaves every stored scan and trap —
including that snapshot — unchanged. -/
theorem addScan_snapshot_and_updateThreshold_frame (state : AppState)
    (scan : Scan) (p : PestType) (u : ThresholdUpdate) :
    (updateThreshold state p u).scans = state.scans ∧
    (updateThreshold state p u).traps = state.traps ∧
    (updateThreshold (addScan state scan) p u).scans =
      (addScan state scan).scans ∧
    (updateThreshold (addScan state scan) p u).traps =
      (addScan state scan).traps ∧
    (∀ t ∈ state.traps, t.id = scan.trapId →
      { t with lastScanned := some scan.timestamp,
               lastCount := some scan.totalCount,
               alertLevel := getHighestAlert scan state.thresholds }
        ∈ (addScan state scan).traps) := by
  refine ⟨rfl, rfl, rfl, rfl, ?_⟩
  intro t ht hid
  simp only [addScan]
  exact List.mem_map.mpr ⟨t, ht, by rw [if_pos hid]⟩

/-- Witness for C7 (amended): saving the twenty-whitefly scan on the
registered trap stamps that trap with the `action` level computed from the
default thresholds, and a subsequent threshold update leaves scans
unchanged. -/
theorem addScan_snapshot_witness :
    (updateThreshold stateWithTrap .whitefly ⟨none, none, some 20⟩).scans =
      stateWithTrap.scans ∧
    demoTrap ∈ stateWithTrap.traps ∧
    { demoTrap with
        lastScanned := some scanWhitefly20.timestamp,
        lastCount := some scanWhitefly20.totalCount,
        alertLevel := getHighestAlert scanWhitefly20 stateWithTrap.thresholds }
      ∈ (addScan stateWithTrap scanWhitefly20).traps :=
  ⟨(addScan_snapshot_and_updateThreshold_frame stateWithTrap scanWhitefly20
      .whitefly ⟨none, none, some 20⟩).1,
   by decide,
   (addScan_snapshot_and_updateThreshold_frame stateWithTrap scanWhitefly20
      .whitefly ⟨none, none, some 20⟩).2.2.2.2 demoTrap (by decide) rfl⟩

end Scout

